import Mathlib

/-!
Shallow embedding of the session-gated polling client in
`src/src/components/DoorMonitor.tsx` (the `DoorMonitor` React component).

Each async handler of the component is modelled as a pure function from the
component state and the outcome of its own network call to a result record
holding the new state, the transient notifications (toasts) it emitted, and
the network requests it issued during its run.  `setState` calls are modelled
as immediate updates (sequential shallow embedding of the handler body).
JavaScript numbers that the component only stores and forwards are modelled
as `Int`; strings as `String`.
-/

namespace DoorMonitor

/-- The `SystemStatus` interface (DoorMonitor.tsx lines 27-36): the parsed
JSON body of a 2xx `/api/status` response. -/
structure SystemStatus where
  success : Bool
  door_open : Bool
  timer_active : Bool
  alarm_triggered : Bool
  remaining_time : Int
  timer_duration : Int
  gpio_available : Bool
  timestamp : String
deriving DecidableEq, Repr

/-- The `Event` interface (lines 38-44): one entry of the events list. -/
structure Event where
  timestamp : String
  event_type : String
  description : String
  username : String
  severity : String
deriving DecidableEq, Repr

/-- The `User` interface (lines 46-49): the credential pair bound to the
login form inputs. -/
structure User where
  username : String
  password : String
deriving DecidableEq, Repr

/-- The parsed JSON body of a 2xx `/api/events` response
(`{success, events}`, consumed at lines 163-166). -/
structure EventsBody where
  success : Bool
  events : List Event
deriving DecidableEq, Repr

/-- The React state of the component (lines 52-58): `isLoggedIn`, `user`,
`status`, `events`, `timerDuration`, `loading`, `error`. -/
structure ComponentState where
  isLoggedIn : Bool
  user : User
  status : Option SystemStatus
  events : List Event
  timerDuration : Int
  loading : Bool
  error : String
deriving DecidableEq, Repr

/-- The initial state set up by the `useState` calls at lines 52-58. -/
def initialState : ComponentState :=
  { isLoggedIn := false
    user := { username := "", password := "" }
    status := none
    events := []
    timerDuration := 30
    loading := false
    error := "" }

/-- Outcome of one `fetch` call, with `β` the type of the parsed JSON body:
`ok` is a response with `response.ok` true, `httpError` a response that
arrived but with a non-2xx code (`response.ok` false; `fetch` resolves), and
`networkError` a rejected `fetch` promise (caught by the `catch` blocks). -/
inductive Response (β : Type) where
  | ok (body : β)
  | httpError
  | networkError
deriving DecidableEq, Repr

/-- One network request issued by a handler.  `probeStatus` is the mount-time
probe of `checkLoginStatus` (line 83); it targets the same `GET /api/status`
endpoint as `statusGet` but is a distinct call site from the feed pull in
`fetchStatus` (line 145), so the two are distinguished here by issuer. -/
inductive Request where
  | probeStatus
  | statusGet
  | eventsGet
  | loginPost (username password : String)
  | logoutGet
  | resetPost
  | updateTimerPost (duration : Int)
deriving DecidableEq, Repr

/-- Whether a request is a feed pull (a status or events pull issued by
`fetchStatus` or `fetchEvents`). -/
def Request.isPull : Request → Bool
  | .statusGet => true
  | .eventsGet => true
  | _ => false

/-- One toast emitted through `useToast` (`destructive` is the
`variant: "destructive"` flag). -/
structure Toast where
  title : String
  description : String
  destructive : Bool
deriving DecidableEq, Repr

/-- The observable result of running one handler to completion: the component
state it leaves behind, the toasts it emitted, and the requests it issued. -/
structure HandlerResult where
  state : ComponentState
  toasts : List Toast
  requests : List Request
deriving DecidableEq, Repr

/-- `fetchStatus` (lines 143-155): pulls `/api/status`; on a 2xx response it
commits the parsed body with `setStatus(data)` unconditionally (the body's
own `success` flag is never inspected); a non-2xx response or a network
error leaves the state untouched. -/
def fetchStatus (s : ComponentState) (r : Response SystemStatus) : HandlerResult :=
  match r with
  | .ok data => { state := { s with status := some data }, toasts := [], requests := [.statusGet] }
  | .httpError => { state := s, toasts := [], requests := [.statusGet] }
  | .networkError => { state := s, toasts := [], requests := [.statusGet] }

/-- `fetchEvents` (lines 157-171): pulls `/api/events`; on a 2xx response it
commits `data.events` only when `data.success` is true; otherwise (non-2xx,
network error, or `success: false`) the state is untouched. -/
def fetchEvents (s : ComponentState) (r : Response EventsBody) : HandlerResult :=
  match r with
  | .ok data =>
      { state := if data.success then { s with events := data.events } else s
        toasts := [], requests := [.eventsGet] }
  | .httpError => { state := s, toasts := [], requests := [.eventsGet] }
  | .networkError => { state := s, toasts := [], requests := [.eventsGet] }

/-- `checkLoginStatus` (lines 81-94): the mount-time probe.  On a 2xx
response it sets `isLoggedIn` true and issues one immediate status pull and
one immediate events pull; a non-2xx response does nothing (no `else`
branch); a network error is caught and logged only. -/
def checkLoginStatus (s : ComponentState) (r : Response Unit) : HandlerResult :=
  match r with
  | .ok _ =>
      { state := { s with isLoggedIn := true }
        toasts := []
        requests := [.probeStatus, .statusGet, .eventsGet] }
  | .httpError => { state := s, toasts := [], requests := [.probeStatus] }
  | .networkError => { state := s, toasts := [], requests := [.probeStatus] }

/-- The entry of `handleLogin` (lines 98-99): `setLoading(true)` and
`setError('')` before the fetch is issued. -/
def handleLoginStart (s : ComponentState) : ComponentState :=
  { s with loading := true, error := "" }

/-- `handleLogin` (lines 96-128): posts the held credentials to `/login`.
On a 2xx response: `isLoggedIn` true, success toast, one immediate pull of
each feed.  On a non-2xx response: `error` is set to a generic invalid
credentials message.  On a network error: `error` names the unreachable
server.  The `finally` block sets `loading` false on every path. -/
def handleLogin (s : ComponentState) (r : Response Unit) : HandlerResult :=
  let s1 := handleLoginStart s
  match r with
  | .ok _ =>
      { state := { s1 with isLoggedIn := true, loading := false }
        toasts := [{ title := "Login Successful"
                     description := "Welcome to the Door Monitoring System"
                     destructive := false }]
        requests := [.loginPost s.user.username s.user.password, .statusGet, .eventsGet] }
  | .httpError =>
      { state := { s1 with error := "Invalid credentials", loading := false }
        toasts := []
        requests := [.loginPost s.user.username s.user.password] }
  | .networkError =>
      { state := { s1 with
                   error := "Connection failed. Make sure the Flask server is running on port 5000."
                   loading := false }
        toasts := []
        requests := [.loginPost s.user.username s.user.password] }

/-- `handleLogout` (lines 130-141): `await fetch('/logout')` and then the
three clearing calls `setIsLoggedIn(false)`, `setStatus(null)`,
`setEvents([])`, all inside the `try` block.  A resolved response (2xx or
non-2xx: `response.ok` is never checked) reaches the clears; a rejected
fetch jumps to the `catch`, which only logs, so nothing is cleared.  No
path touches `user`. -/
def handleLogout (s : ComponentState) (r : Response Unit) : HandlerResult :=
  match r with
  | .ok _ =>
      { state := { s with isLoggedIn := false, status := none, events := [] }
        toasts := [], requests := [.logoutGet] }
  | .httpError =>
      { state := { s with isLoggedIn := false, status := none, events := [] }
        toasts := [], requests := [.logoutGet] }
  | .networkError => { state := s, toasts := [], requests := [.logoutGet] }

/-- `resetSystem` (lines 173-196): posts `/api/reset`.  On a 2xx response:
success toast and one immediate pull of each feed.  On a non-2xx response:
nothing at all (the `if (response.ok)` has no `else`).  On a network error:
failure toast.  No branch changes the component state. -/
def resetSystem (s : ComponentState) (r : Response Unit) : HandlerResult :=
  match r with
  | .ok _ =>
      { state := s
        toasts := [{ title := "System Reset"
                     description := "System has been reset successfully"
                     destructive := false }]
        requests := [.resetPost, .statusGet, .eventsGet] }
  | .httpError => { state := s, toasts := [], requests := [.resetPost] }
  | .networkError =>
      { state := s
        toasts := [{ title := "Reset Failed"
                     description := "Failed to reset system"
                     destructive := true }]
        requests := [.resetPost] }

/-- `updateTimer` (lines 198-222): posts `{duration: timerDuration}` to
`/api/update_timer` with the held `timerDuration`, with no range check of
any kind before the fetch.  On a 2xx response: success toast naming the
duration and one immediate pull of each feed.  On a non-2xx response:
nothing (no `else`).  On a network error: failure toast.  No branch changes
the component state. -/
def updateTimer (s : ComponentState) (r : Response Unit) : HandlerResult :=
  match r with
  | .ok _ =>
      { state := s
        toasts := [{ title := "Timer Updated"
                     description := "Timer duration set to " ++ toString s.timerDuration ++ " seconds"
                     destructive := false }]
        requests := [.updateTimerPost s.timerDuration, .statusGet, .eventsGet] }
  | .httpError => { state := s, toasts := [], requests := [.updateTimerPost s.timerDuration] }
  | .networkError =>
      { state := s
        toasts := [{ title := "Update Failed"
                     description := "Failed to update timer"
                     destructive := true }]
        requests := [.updateTimerPost s.timerDuration] }

/-- The `onChange` handler of the username input (line 254):
`setUser({...user, username: value})`. -/
def onUsernameChange (s : ComponentState) (v : String) : ComponentState :=
  { s with user := { s.user with username := v } }

/-- The `onChange` handler of the password input (line 265):
`setUser({...user, password: value})`. -/
def onPasswordChange (s : ComponentState) (v : String) : ComponentState :=
  { s with user := { s.user with password := v } }

/-- The inline login error actually rendered (lines 228-245): the alert with
the `error` text exists only in the logged-out render branch and only when
`error` is non-empty. -/
def renderedInlineError (s : ComponentState) : Option String :=
  if s.isLoggedIn then none else if s.error = "" then none else some s.error

/-- A concrete status snapshot used in concrete evaluations. -/
def sampleStatus : SystemStatus :=
  { success := true
    door_open := true
    timer_active := true
    alarm_triggered := false
    remaining_time := 12
    timer_duration := 30
    gpio_available := true
    timestamp := "2026-10-11T10:00:00" }

/-- A concrete status snapshot whose body carries `success: false`. -/
def badStatus : SystemStatus := { sampleStatus with success := false }

/-- A concrete event record used in concrete evaluations. -/
def sampleEvent : Event :=
  { timestamp := "2026-10-11T09:59:00"
    event_type := "DOOR_OPEN"
    description := "Door opened"
    username := "admin"
    severity := "INFO" }

/-- A concrete logged-in state with a held snapshot and a non-empty event
list. -/
def liveState : ComponentState :=
  { isLoggedIn := true
    user := { username := "admin", password := "admin123" }
    status := some sampleStatus
    events := [sampleEvent]
    timerDuration := 30
    loading := false
    error := "" }

/-- `liveState` with an out-of-range timer duration entered (the input
`onChange` stores `parseInt` of whatever was typed, line 451, so any integer
can be held). -/
def outOfRangeState : ComponentState := { liveState with timerDuration := 0 }

/-- The state right after a logout whose network call resolved. -/
def loggedOutState : ComponentState := (handleLogout liveState (Response.ok ())).state

/-- A concrete events body carrying `success: false`. -/
def failedEventsBody : EventsBody := { success := false, events := [] }

/-!
Scheduler model for the polling `useEffect` (lines 69-79).  The effect has
dependency array `[isLoggedIn]`: whenever `isLoggedIn` flips to true it
creates the two `setInterval` handles (a fresh recurring schedule), and its
cleanup clears both the instant `isLoggedIn` flips to false.  `World` pairs
the component state with the schedule: `sched = some g` means the interval
pair created by activation number `g` is live; `nextGen` numbers
activations so that a restarted schedule is distinguishable from a resumed
one.  `step` runs one user/timer/network-driven handler to completion and
then reconciles the effect, returning the requests the handler issued.
-/

/-- The world: component state plus the polling-interval pair created by the
`useEffect` at lines 69-79 (`some g` = the intervals from activation `g`
are live, `none` = no intervals). -/
structure World where
  comp : ComponentState
  sched : Option Nat
  nextGen : Nat
deriving DecidableEq, Repr

/-- The world at mount: initial component state, no intervals yet. -/
def initialWorld : World :=
  { comp := initialState, sched := none, nextGen := 0 }

/-- Reconcile the `[isLoggedIn]` effect after a state update: if the flag is
unchanged the effect does not re-run; on a flip to true a fresh interval
pair is created (new generation); on a flip to false the cleanup clears
both intervals. -/
def applyEffect (w : World) (c : ComponentState) : World :=
  if c.isLoggedIn = w.comp.isLoggedIn then { w with comp := c }
  else if c.isLoggedIn then { comp := c, sched := some w.nextGen, nextGen := w.nextGen + 1 }
  else { comp := c, sched := none, nextGen := w.nextGen }

/-- One schedulable occurrence, carrying the outcome of its own fetch:
the mount probe, a login form submission, a logout click, one firing of the
status or events interval, a reset click, or an update-timer click. -/
inductive Action where
  | probe (r : Response Unit)
  | loginSubmit (r : Response Unit)
  | logoutClick (r : Response Unit)
  | statusTick (r : Response SystemStatus)
  | eventsTick (r : Response EventsBody)
  | resetClick (r : Response Unit)
  | updateClick (r : Response Unit)

/-- Run one action: the handler fires only when its trigger exists (the
login form is rendered only while logged out, lines 228-282; the logout,
reset and update buttons only while logged in, lines 284-526; an interval
can fire only while it is scheduled), then the effect is reconciled.
Returns the new world and the requests issued. -/
def step (w : World) (a : Action) : World × List Request :=
  match a with
  | .probe r =>
      (applyEffect w (checkLoginStatus w.comp r).state, (checkLoginStatus w.comp r).requests)
  | .loginSubmit r =>
      if w.comp.isLoggedIn then (w, [])
      else (applyEffect w (handleLogin w.comp r).state, (handleLogin w.comp r).requests)
  | .logoutClick r =>
      if w.comp.isLoggedIn then
        (applyEffect w (handleLogout w.comp r).state, (handleLogout w.comp r).requests)
      else (w, [])
  | .statusTick r =>
      if w.sched.isSome then
        (applyEffect w (fetchStatus w.comp r).state, (fetchStatus w.comp r).requests)
      else (w, [])
  | .eventsTick r =>
      if w.sched.isSome then
        (applyEffect w (fetchEvents w.comp r).state, (fetchEvents w.comp r).requests)
      else (w, [])
  | .resetClick r =>
      if w.comp.isLoggedIn then
        (applyEffect w (resetSystem w.comp r).state, (resetSystem w.comp r).requests)
      else (w, [])
  | .updateClick r =>
      if w.comp.isLoggedIn then
        (applyEffect w (updateTimer w.comp r).state, (updateTimer w.comp r).requests)
      else (w, [])

/-- Worlds reachable from the mount-time world. -/
inductive Reachable : World → Prop where
  | init : Reachable initialWorld
  | tail {w : World} (a : Action) : Reachable w → Reachable (step w a).1

/-- Reflexive-transitive closure of `step` from an arbitrary world. -/
inductive ReachableFrom : World → World → Prop where
  | refl (w : World) : ReachableFrom w w
  | tail {v w : World} (a : Action) : ReachableFrom v w → ReachableFrom v (step w a).1

/-- The world invariant: the interval pair exists exactly while the session
is active, and a live schedule generation is below the generation counter. -/
def goodW (w : World) : Prop :=
  w.sched.isSome = w.comp.isLoggedIn ∧ ∀ g : Nat, w.sched = some g → g < w.nextGen

/-- The world after a successful mount-time probe: schedule generation 0. -/
def worldA : World := (step initialWorld (Action.probe (Response.ok ()))).1

/-- `worldA` after a logout click whose call resolved: no schedule. -/
def worldB : World := (step worldA (Action.logoutClick (Response.ok ()))).1

/-- `worldB` after another successful probe: a fresh schedule, generation 1. -/
def worldC : World := (step worldB (Action.probe (Response.ok ()))).1

lemma applyEffect_comp (w : World) (c : ComponentState) : (applyEffect w c).comp = c := by
  unfold applyEffect
  split_ifs <;> rfl

lemma applyEffect_nextGen_le (w : World) (c : ComponentState) :
    w.nextGen ≤ (applyEffect w c).nextGen := by
  unfold applyEffect
  split_ifs <;> simp

lemma applyEffect_sched_cases (w : World) (c : ComponentState) :
    (applyEffect w c).sched = w.sched ∨ (applyEffect w c).sched = some w.nextGen ∨
      (applyEffect w c).sched = none := by
  unfold applyEffect
  split_ifs <;> simp

lemma applyEffect_goodW (w : World) (c : ComponentState) (h : goodW w) :
    goodW (applyEffect w c) := by
  obtain ⟨h1, h2⟩ := h
  unfold applyEffect goodW
  split_ifs with hflag hon
  · refine ⟨?_, ?_⟩
    · simpa [hflag] using h1
    · intro g hg
      exact h2 g hg
  · refine ⟨?_, ?_⟩
    · simp [hon]
    · intro g hg
      simp at hg
      simp
      omega
  · constructor
    · simp at hon
      simp [hon]
    · intro g hg
      simp at hg

lemma step_world_cases (w : World) (a : Action) :
    (step w a).1 = w ∨ ∃ c : ComponentState, (step w a).1 = applyEffect w c := by
  cases a with
  | probe r => exact Or.inr ⟨_, rfl⟩
  | loginSubmit r =>
      by_cases h : w.comp.isLoggedIn <;> simp [step, h]
  | logoutClick r =>
      by_cases h : w.comp.isLoggedIn <;> simp [step, h]
  | statusTick r =>
      by_cases h : w.sched.isSome <;> simp [step, h]
  | eventsTick r =>
      by_cases h : w.sched.isSome <;> simp [step, h]
  | resetClick r =>
      by_cases h : w.comp.isLoggedIn <;> simp [step, h]
  | updateClick r =>
      by_cases h : w.comp.isLoggedIn <;> simp [step, h]

lemma step_goodW (w : World) (a : Action) (h : goodW w) : goodW (step w a).1 := by
  rcases step_world_cases w a with heq | ⟨c, heq⟩
  · rw [heq]; exact h
  · rw [heq]; exact applyEffect_goodW w c h

lemma step_nextGen_le (w : World) (a : Action) : w.nextGen ≤ (step w a).1.nextGen := by
  rcases step_world_cases w a with heq | ⟨c, heq⟩
  · rw [heq]
  · rw [heq]; exact applyEffect_nextGen_le w c

lemma step_sched_cases (w : World) (a : Action) :
    (step w a).1.sched = w.sched ∨ (step w a).1.sched = some w.nextGen ∨
      (step w a).1.sched = none := by
  rcases step_world_cases w a with heq | ⟨c, heq⟩
  · rw [heq]; exact Or.inl rfl
  · rw [heq]; exact applyEffect_sched_cases w c

lemma reachable_goodW (w : World) (h : Reachable w) : goodW w := by
  induction h with
  | init => exact ⟨rfl, by intro g hg; simp [initialWorld] at hg⟩
  | tail a _ ih => exact step_goodW _ a ih

lemma reachableFrom_nextGen_le {v w : World} (h : ReachableFrom v w) :
    v.nextGen ≤ w.nextGen := by
  induction h with
  | refl => exact le_refl _
  | tail a _ ih => exact le_trans ih (step_nextGen_le _ a)

lemma reachableFrom_sched_lower {v w : World} (h : ReachableFrom v w) :
    ∀ g : Nat, w.sched = some g → w.sched = v.sched ∨ v.nextGen ≤ g := by
  induction h with
  | refl => intro g _; exact Or.inl rfl
  | tail a hfrom ih =>
      intro g hg
      rcases step_sched_cases _ a with hc | hc | hc
      · rcases ih g (hc ▸ hg) with he | he
        · exact Or.inl (hc.trans he)
        · exact Or.inr he
      · rw [hc] at hg
        have hge : g = _ := (Option.some_injective _ hg.symm)
        exact Or.inr (by rw [hge]; exact reachableFrom_nextGen_le hfrom)
      · rw [hc] at hg
        cases hg

lemma handler_state_isLoggedIn_true (w : World) (h : w.comp.isLoggedIn = true) :
    (∀ r : Response SystemStatus, (fetchStatus w.comp r).state.isLoggedIn = true) ∧
    (∀ r : Response EventsBody, (fetchEvents w.comp r).state.isLoggedIn = true) ∧
    (∀ r : Response Unit, (resetSystem w.comp r).state.isLoggedIn = true) ∧
    (∀ r : Response Unit, (updateTimer w.comp r).state.isLoggedIn = true) := by
  refine ⟨?_, ?_, ?_, ?_⟩ <;> intro r <;> cases r <;>
    simp [fetchStatus, fetchEvents, resetSystem, updateTimer, h]
  split_ifs <;> simp [h]

lemma step_pull_gating (w : World) (hg : goodW w) (a : Action) :
    ∀ req ∈ (step w a).2, Request.isPull req = true → (step w a).1.comp.isLoggedIn = true := by
  intro req hreq hpull
  cases a with
  | probe r =>
      cases r with
      | ok b =>
          simp [step, applyEffect_comp, checkLoginStatus]
      | httpError =>
          simp [step, checkLoginStatus] at hreq
          rw [hreq] at hpull
          simp [Request.isPull] at hpull
      | networkError =>
          simp [step, checkLoginStatus] at hreq
          rw [hreq] at hpull
          simp [Request.isPull] at hpull
  | loginSubmit r =>
      by_cases h : w.comp.isLoggedIn
      · simp [step, h] at hreq
      · cases r with
        | ok b =>
            simp [step, h, applyEffect_comp, handleLogin, handleLoginStart]
        | httpError =>
            simp [step, h, handleLogin, handleLoginStart] at hreq
            rw [hreq] at hpull
            simp [Request.isPull] at hpull
        | networkError =>
            simp [step, h, handleLogin, handleLoginStart] at hreq
            rw [hreq] at hpull
            simp [Request.isPull] at hpull
  | logoutClick r =>
      by_cases h : w.comp.isLoggedIn
      · cases r <;>
          · simp [step, h, handleLogout] at hreq
            rw [hreq] at hpull
            simp [Request.isPull] at hpull
      · simp [step, h] at hreq
  | statusTick r =>
      by_cases h : w.sched.isSome
      · have hlog : w.comp.isLoggedIn = true := by rw [← hg.1]; simpa using h
        simp [step, h, applyEffect_comp]
        exact (handler_state_isLoggedIn_true w hlog).1 r
      · simp [step, h] at hreq
  | eventsTick r =>
      by_cases h : w.sched.isSome
      · have hlog : w.comp.isLoggedIn = true := by rw [← hg.1]; simpa using h
        simp [step, h, applyEffect_comp]
        exact (handler_state_isLoggedIn_true w hlog).2.1 r
      · simp [step, h] at hreq
  | resetClick r =>
      by_cases h : w.comp.isLoggedIn
      · have hlog : w.comp.isLoggedIn = true := by simpa using h
        simp [step, h, applyEffect_comp]
        exact (handler_state_isLoggedIn_true w hlog).2.2.1 r
      · simp [step, h] at hreq
  | updateClick r =>
      by_cases h : w.comp.isLoggedIn
      · have hlog : w.comp.isLoggedIn = true := by simpa using h
        simp [step, h, applyEffect_comp]
        exact (handler_state_isLoggedIn_true w hlog).2.2.2 r
      · simp [step, h] at hreq

/-- Claim C1, counterexample: with the out-of-range duration 0 held,
`updateTimer` still issues the `/api/update_timer` network call carrying 0
in the request body, contradicting the claim that no network call is
issued and the value is never sent. -/
theorem updateTimer_out_of_range_still_calls :
    outOfRangeState.timerDuration = 0 ∧
    (updateTimer outOfRangeState (Response.ok ())).requests ≠ [] ∧
    Request.updateTimerPost 0 ∈ (updateTimer outOfRangeState (Response.ok ())).requests := by
  refine ⟨rfl, ?_, ?_⟩ <;> simp [updateTimer, outOfRangeState, liveState]

/-- Claim C1 (amended): `updateTimer` performs no local range validation:
for every held `timerDuration`, including every out-of-range value
(`seconds < 1` or `seconds > 86400`), it issues the `/api/update_timer`
request carrying that value in the body. -/
theorem updateTimer_no_local_validation (s : ComponentState) (r : Response Unit)
    (_h : s.timerDuration < 1 ∨ 86400 < s.timerDuration) :
    Request.updateTimerPost s.timerDuration ∈ (updateTimer s r).requests := by
  cases r <;> simp [updateTimer]

/-- Witness for `updateTimer_no_local_validation` at the concrete
out-of-range state. -/
theorem updateTimer_no_local_validation_witness :
    (outOfRangeState.timerDuration < 1 ∨ 86400 < outOfRangeState.timerDuration) ∧
    Request.updateTimerPost outOfRangeState.timerDuration ∈
      (updateTimer outOfRangeState Response.httpError).requests :=
  ⟨Or.inl (by decide),
    updateTimer_no_local_validation outOfRangeState Response.httpError (Or.inl (by decide))⟩

/-- Claim C2, counterexample: when the logout call fails at network level,
`handleLogout` changes nothing (session still active, snapshot and events
retained); and even when it resolves, the held credentials (the only
identity-like client state) are not cleared. -/
theorem logout_network_failure_clears_nothing :
    (handleLogout liveState Response.networkError).state = liveState ∧
    liveState.isLoggedIn = true ∧
    liveState.status = some sampleStatus ∧
    liveState.events = [sampleEvent] ∧
    (handleLogout liveState (Response.ok ())).state.user.username = "admin" := by
  exact ⟨rfl, rfl, rfl, rfl, rfl⟩

/-- Claim C2 (amended): when the logout call resolves (2xx or non-2xx alike
— the response code is never checked), `handleLogout` sets the session
inactive, clears DeviceStatus and empties the event collection, but leaves
the held credentials untouched; when the call fails at network level,
nothing at all is changed. -/
theorem logout_clears_only_on_resolved_response (s : ComponentState) :
    ((handleLogout s (Response.ok ())).state.isLoggedIn = false ∧
     (handleLogout s (Response.ok ())).state.status = none ∧
     (handleLogout s (Response.ok ())).state.events = [] ∧
     (handleLogout s (Response.ok ())).state.user = s.user) ∧
    ((handleLogout s Response.httpError).state.isLoggedIn = false ∧
     (handleLogout s Response.httpError).state.status = none ∧
     (handleLogout s Response.httpError).state.events = [] ∧
     (handleLogout s Response.httpError).state.user = s.user) ∧
    (handleLogout s Response.networkError).state = s := by
  simp [handleLogout]

/-- Claim C3, counterexample: after a completed logout the state is cleared
and inactive, yet a late 2xx status response handed to `fetchStatus`
repopulates DeviceStatus, contradicting the claim that it remains absent. -/
theorem late_status_response_repopulates :
    loggedOutState.isLoggedIn = false ∧
    loggedOutState.status = none ∧
    (fetchStatus loggedOutState (Response.ok sampleStatus)).state.status = some sampleStatus ∧
    (fetchStatus loggedOutState (Response.ok sampleStatus)).state.status ≠ none := by
  refine ⟨rfl, rfl, rfl, ?_⟩
  simp [fetchStatus]

/-- Claim C3 (amended): `fetchStatus` performs no session check before
committing: a 2xx status response is committed to DeviceStatus even when
the session is inactive, so a pull resolving after logout does repopulate
the cleared DeviceStatus. -/
theorem fetchStatus_commits_without_session_check (s : ComponentState) (d : SystemStatus)
    (_h : s.isLoggedIn = false) :
    (fetchStatus s (Response.ok d)).state.status = some d := by
  simp [fetchStatus]

/-- Witness for `fetchStatus_commits_without_session_check` at the concrete
post-logout state. -/
theorem fetchStatus_commits_without_session_check_witness :
    loggedOutState.isLoggedIn = false ∧
    (fetchStatus loggedOutState (Response.ok sampleStatus)).state.status = some sampleStatus :=
  ⟨rfl, fetchStatus_commits_without_session_check loggedOutState sampleStatus rfl⟩

/-- Claim C4, counterexample: a non-2xx response to a reset or update-timer
dispatch produces no notification at all (the `if (response.ok)` has no
`else` branch), contradicting the claim that every failed dispatch emits a
failure notification. -/
theorem command_http_failure_is_silent :
    (resetSystem liveState Response.httpError).toasts = [] ∧
    (updateTimer liveState Response.httpError).toasts = [] ∧
    (resetSystem liveState Response.httpError).state = liveState ∧
    (updateTimer liveState Response.httpError).state = liveState := by
  exact ⟨rfl, rfl, rfl, rfl⟩

/-- Claim C4 (amended): a command dispatch that fails at network level
emits a failure notification and changes no local state; a dispatch that
receives a non-2xx response is silent — no notification — and also changes
no local state. -/
theorem command_failure_notifications (s : ComponentState) :
    ((resetSystem s Response.networkError).state = s ∧
     (resetSystem s Response.networkError).toasts =
       [{ title := "Reset Failed", description := "Failed to reset system",
          destructive := true }]) ∧
    ((resetSystem s Response.httpError).state = s ∧
     (resetSystem s Response.httpError).toasts = []) ∧
    ((updateTimer s Response.networkError).state = s ∧
     (updateTimer s Response.networkError).toasts =
       [{ title := "Update Failed", description := "Failed to update timer",
          destructive := true }]) ∧
    ((updateTimer s Response.httpError).state = s ∧
     (updateTimer s Response.httpError).toasts = []) := by
  simp [resetSystem, updateTimer]

/-- Claim C5: every failed pull — non-2xx or network failure for either
feed, and for the events feed also a 2xx body carrying `success: false` —
leaves the previously held DeviceStatus and event collection (indeed the
whole state) unchanged. -/
theorem failed_pull_retains_previous_state (s : ComponentState) :
    (fetchStatus s Response.httpError).state = s ∧
    (fetchStatus s Response.networkError).state = s ∧
    (fetchEvents s Response.httpError).state = s ∧
    (fetchEvents s Response.networkError).state = s ∧
    (∀ b : EventsBody, b.success = false → (fetchEvents s (Response.ok b)).state = s) := by
  refine ⟨rfl, rfl, rfl, rfl, ?_⟩
  intro b hb
  simp [fetchEvents, hb]

/-- Witness for `failed_pull_retains_previous_state` at a concrete state
and a concrete `success: false` events body. -/
theorem failed_pull_retains_previous_state_witness :
    (fetchStatus liveState Response.httpError).state = liveState ∧
    failedEventsBody.success = false ∧
    (fetchEvents liveState (Response.ok failedEventsBody)).state = liveState :=
  ⟨(failed_pull_retains_previous_state liveState).1, rfl,
    (failed_pull_retains_previous_state liveState).2.2.2.2 failedEventsBody rfl⟩

/-- Claim C6: a failed login leaves the session inactive, issues no feed
pull, and renders a persistent inline error whose text distinguishes the
cause: the generic invalid-credentials message on a non-2xx response
(naming neither field), and an unreachable-server message on a network
failure; the two messages differ. -/
theorem login_failure_behavior (s : ComponentState) (h : s.isLoggedIn = false) :
    ((handleLogin s Response.httpError).state.isLoggedIn = false ∧
     renderedInlineError (handleLogin s Response.httpError).state =
       some "Invalid credentials" ∧
     (handleLogin s Response.httpError).requests.filter Request.isPull = []) ∧
    ((handleLogin s Response.networkError).state.isLoggedIn = false ∧
     renderedInlineError (handleLogin s Response.networkError).state =
       some "Connection failed. Make sure the Flask server is running on port 5000." ∧
     (handleLogin s Response.networkError).requests.filter Request.isPull = []) ∧
    ("Invalid credentials" ≠
      "Connection failed. Make sure the Flask server is running on port 5000.") := by
  refine ⟨⟨?_, ?_, ?_⟩, ⟨?_, ?_, ?_⟩, ?_⟩ <;>
    simp [handleLogin, handleLoginStart, renderedInlineError, Request.isPull, h]

/-- Witness for `login_failure_behavior` at the initial (logged-out)
state. -/
theorem login_failure_behavior_witness :
    initialState.isLoggedIn = false ∧
    renderedInlineError (handleLogin initialState Response.httpError).state =
      some "Invalid credentials" ∧
    renderedInlineError (handleLogin initialState Response.networkError).state =
      some "Connection failed. Make sure the Flask server is running on port 5000." :=
  ⟨rfl, (login_failure_behavior initialState rfl).1.2.1,
    (login_failure_behavior initialState rfl).2.1.2.1⟩

/-- Claim C7: in every reachable world, (a) the recurring interval pair
exists exactly when the session is active; (b) no step issues a feed pull
(status or events) ending in an inactive session — pulls are only ever
issued with the session active (the mount-time probe targets the same
endpoint but is the probe operation, not a feed pull); (c) once the
schedule of generation `g` has been cancelled, any schedule existing later
has a strictly larger generation: reactivation starts a fresh schedule,
never resumes the old one. -/
theorem polling_gating_invariant (w : World) (hw : Reachable w) :
    (w.sched.isSome = w.comp.isLoggedIn) ∧
    (∀ a : Action, ∀ req ∈ (step w a).2, Request.isPull req = true →
        (step w a).1.comp.isLoggedIn = true) ∧
    (∀ w1 w2 : World, ∀ g g2 : Nat, w.sched = some g → ReachableFrom w w1 →
        w1.sched = none → ReachableFrom w1 w2 → w2.sched = some g2 → g < g2) := by
  have hg := reachable_goodW w hw
  refine ⟨hg.1, fun a => step_pull_gating w hg a, ?_⟩
  intro w1 w2 g g2 hsome h1 hnone h2 hsome2
  rcases reachableFrom_sched_lower h2 g2 hsome2 with he | he
  · rw [hnone] at he
    rw [he] at hsome2
    cases hsome2
  · have h3 := hg.2 g hsome
    have h4 := reachableFrom_nextGen_le h1
    omega

/-- Witness for `polling_gating_invariant`: the gating equality at the
concrete activated world, and the freshness conclusion instantiated on the
concrete trace activate (generation 0), logout, re-activate (generation 1),
yielding 0 < 1. -/
theorem polling_gating_invariant_witness :
    (worldA.sched.isSome = worldA.comp.isLoggedIn) ∧ (0 : Nat) < 1 := by
  have h := polling_gating_invariant worldA (Reachable.tail (Action.probe (Response.ok ())) Reachable.init)
  refine ⟨h.1, ?_⟩
  exact h.2.2 worldB worldC 0 1 rfl
    (ReachableFrom.tail (Action.logoutClick (Response.ok ())) (ReachableFrom.refl worldA)) rfl
    (ReachableFrom.tail (Action.probe (Response.ok ())) (ReachableFrom.refl worldB)) rfl

/-- Claim C8: a 2xx status response is committed wholesale by `fetchStatus`
even when its body carries `success: false` — the flag is never inspected —
whereas `fetchEvents` retains the previous collection on `success: false`
and commits only when the flag is true. -/
theorem status_commit_unchecked_events_gated (s : ComponentState) (d : SystemStatus)
    (b : EventsBody) (_hd : d.success = false) (hb : b.success = false) :
    (fetchStatus s (Response.ok d)).state.status = some d ∧
    (fetchEvents s (Response.ok b)).state.events = s.events ∧
    (∀ b2 : EventsBody, b2.success = true →
        (fetchEvents s (Response.ok b2)).state.events = b2.events) := by
  refine ⟨rfl, ?_, ?_⟩
  · simp [fetchEvents, hb]
  · intro b2 hb2
    simp [fetchEvents, hb2]

/-- Witness for `status_commit_unchecked_events_gated` at a concrete
`success: false` status body and events body. -/
theorem status_commit_unchecked_events_gated_witness :
    badStatus.success = false ∧
    (fetchStatus liveState (Response.ok badStatus)).state.status = some badStatus ∧
    (fetchEvents liveState (Response.ok failedEventsBody)).state.events = liveState.events :=
  ⟨rfl, (status_commit_unchecked_events_gated liveState badStatus failedEventsBody rfl rfl).1,
    (status_commit_unchecked_events_gated liveState badStatus failedEventsBody rfl rfl).2.1⟩

/-- Claim C9: no handler ever clears or rewrites the held credential pair —
every network-driven operation (login in every outcome, logout in every
outcome, the probe, both pulls, both commands) leaves `user` exactly as it
was; only the two login-form input handlers write it, each updating its own
field. -/
theorem credentials_never_cleared (s : ComponentState) :
    (∀ r : Response Unit, (handleLogin s r).state.user = s.user) ∧
    (∀ r : Response Unit, (handleLogout s r).state.user = s.user) ∧
    (∀ r : Response Unit, (checkLoginStatus s r).state.user = s.user) ∧
    (∀ r : Response SystemStatus, (fetchStatus s r).state.user = s.user) ∧
    (∀ r : Response EventsBody, (fetchEvents s r).state.user = s.user) ∧
    (∀ r : Response Unit, (resetSystem s r).state.user = s.user) ∧
    (∀ r : Response Unit, (updateTimer s r).state.user = s.user) ∧
    (∀ v : String, (onUsernameChange s v).user =
        { username := v, password := s.user.password }) ∧
    (∀ v : String, (onPasswordChange s v).user =
        { username := s.user.username, password := v }) := by
  refine ⟨?_, ?_, ?_, ?_, ?_, ?_, ?_, ?_, ?_⟩ <;> intro r <;> cases r <;>
    simp [handleLogin, handleLoginStart, handleLogout, checkLoginStatus, fetchStatus,
      fetchEvents, resetSystem, updateTimer, onUsernameChange, onPasswordChange]
  split_ifs <;> rfl

/-- Claim C10: `handleLogin` sets `loading` true on entry (before the fetch)
and, on every outcome — success, rejected credentials, or network failure —
its `finally` block leaves `loading` false when the operation resolves. -/
theorem loading_flag_lifecycle (s : ComponentState) :
    (handleLoginStart s).loading = true ∧
    (∀ r : Response Unit, (handleLogin s r).state.loading = false) := by
  refine ⟨rfl, ?_⟩
  intro r
  cases r <;> rfl

end DoorMonitor
